import Mathlib

/-!
Verification of the "Infinite Messaging Tree" core against its source.

Shallow embedding of:
  * `hash.js` (src/unnamed/part_007): `hashCode`, `seededRandom`,
    `getMessagePlacement`, `getPositionForTreePart`;
  * `storage.js` (src/src/utils/storage.js): the localStorage-backed message
    store and `calculateTier`;
  * the Yearfruit tier-progress helper (`getTierInfo`, `getProgressToNextTier`
    from the repository README's source listing);
  * the two `NodeSystem.addNode` variants (src/src/scene/Nodes.js, emotion
    nodes; src/unnamed/part_004, tree-part inscriptions).

Modelling conventions:
  * JavaScript doubles are modelled as exact rationals; the transcendental
    primitives (`Math.sin`, `Math.cos`, `Math.acos`, `Math.PI`) are abstracted
    as a parameter record `FloatOps`, an arbitrary but fixed interpretation.
    The placement claims (determinism, category independence from the random
    stream) are proved for every interpretation, hence in particular for the
    real double-precision one.
  * Strings are hashed over their UTF-16 code units, as `charCodeAt` does.
  * JavaScript 32-bit coercion (`| x & x`, `<<`) is `toInt32`.
  * `localStorage` is a state record; `JSON.parse` failure on corrupt data and
    `setItem` quota failure are explicit in the state; functions that can throw
    a TypeError in JS return `Option` (`none` = the exception propagates).
  * ISO-8601 timestamps are modelled by the epoch-millisecond instant they
    denote; `Date.prototype.getFullYear` is modelled with an explicit timezone
    offset `tz` (milliseconds added to UTC), `tz = 0` being UTC.
-/

/-! ### hash.js -/

/-- JS ToInt32: reduce an integer to the signed 32-bit range. -/
def toInt32 (n : Int) : Int :=
  let m := n % 4294967296
  if m < 2147483648 then m else m - 4294967296

/-- UTF-16 code units of a character (surrogate pair above the BMP),
as `String.prototype.charCodeAt` enumerates them. -/
def utf16CodeUnits (c : Char) : List Nat :=
  if c.toNat < 65536 then [c.toNat]
  else [55296 + (c.toNat - 65536) / 1024, 56320 + (c.toNat - 65536) % 1024]

/-- The sequence of `charCodeAt` values of a string. -/
def jsCharCodes (s : String) : List Nat :=
  (s.data.map utf16CodeUnits).flatten

/-- One loop iteration of `hashCode`:
`hash = ((hash << 5) - hash) + char; hash = hash & hash`. -/
def hashStep (h : Int) (c : Nat) : Int :=
  toInt32 (toInt32 (h * 32) - h + c)

/-- `hashCode(str)` from hash.js: polynomial rolling hash over the code units,
coerced to int32 each step, `Math.abs` at the end. -/
def hashCode (s : String) : Nat :=
  ((jsCharCodes s).foldl hashStep 0).natAbs

/-- Abstract interpretation of the numeric primitives used by the placement
code. The real `Math.sin`/`Math.cos`/`Math.acos`/`Math.PI` on doubles are one
such interpretation; the theorems below hold for every one. -/
structure FloatOps where
  sin : ℚ → ℚ
  cos : ℚ → ℚ
  acos : ℚ → ℚ
  pi : ℚ

/-- Truncation toward zero on ℚ (JS number-to-integer rounding in `%`). -/
def truncQ (x : ℚ) : ℚ :=
  if 0 ≤ x then (⌊x⌋ : ℚ) else (⌈x⌉ : ℚ)

/-- JS `%` on numbers: `x - y * trunc (x / y)`. -/
def jsMod (x y : ℚ) : ℚ :=
  x - y * truncQ (x / y)

/-- `Math.floor` on ℚ. -/
def jsFloor (x : ℚ) : ℚ :=
  (⌊x⌋ : ℚ)

/-- One draw of `seededRandom(seed)`'s closure: mutate the state by
`s = Math.sin(s * 9999) * 10000` and return `s - Math.floor(s)`.
Returns (value, new state). -/
def seededRandomNext (F : FloatOps) (s : ℚ) : ℚ × ℚ :=
  let s2 := F.sin (s * 9999) * 10000
  (s2 - jsFloor s2, s2)

/-- `TREE_PARTS` from hash.js. -/
def TREE_PARTS : List String := ["trunk", "branch", "leaf", "root"]

/-- `DEFAULT_TREE_PART` from hash.js. -/
def DEFAULT_TREE_PART : String := "trunk"

/-- A 3D point `{x, y, z}`. -/
structure Pos3 where
  x : ℚ
  y : ℚ
  z : ℚ
deriving DecidableEq, Repr

/-- `getPositionForTreePart(treePart, rand, seed)` from hash.js, with the
closure state of `rand` threaded explicitly: returns the position and the
PRNG state after the draws this branch performs. -/
def getPositionForTreePart (F : FloatOps) (treePart : String) (seed : Nat)
    (s : ℚ) : Pos3 × ℚ :=
  if treePart = "trunk" then
    let angle := jsMod ((seed : ℚ) * 0.618) (F.pi * 2)
    let (r1, s1) := seededRandomNext F s
    let height := 1 + r1 * 6
    let radius := 1.2 + (height / 8) * (-0.3)
    (⟨F.cos angle * radius, height, F.sin angle * radius⟩, s1)
  else if treePart = "branch" then
    let branchAngle := jsMod ((seed : ℚ) * 0.718) (F.pi * 2)
    let (r1, s1) := seededRandomNext F s
    let branchLength := 1 + r1 * 3
    let (r2, s2) := seededRandomNext F s1
    let height := 5 + r2 * 3
    (⟨F.cos branchAngle * branchLength, height, F.sin branchAngle * branchLength⟩, s2)
  else if treePart = "leaf" then
    let theta := jsMod ((seed : ℚ) * 0.618) (F.pi * 2)
    let (r1, s1) := seededRandomNext F s
    let phi := F.acos (1 - 2 * r1)
    let (r2, s2) := seededRandomNext F s1
    let canopyRadius := 4 + r2 * 2
    (⟨canopyRadius * F.sin phi * F.cos theta,
      8 + canopyRadius * F.cos phi * 0.6,
      canopyRadius * F.sin phi * F.sin theta⟩, s2)
  else if treePart = "root" then
    let rootAngle := jsMod ((seed : ℚ) * 0.818) (F.pi * 2)
    let (r1, s1) := seededRandomNext F s
    let rootLength := 2 + r1 * 2
    let (r2, s2) := seededRandomNext F s1
    (⟨F.cos rootAngle * rootLength, -0.1 + r2 * 0.5, F.sin rootAngle * rootLength⟩, s2)
  else
    (⟨0, 5, 0⟩, s)

/-- Output record of `getMessagePlacement`. -/
structure Placement where
  treePart : String
  position : Pos3
  glowIntensity : ℚ
deriving DecidableEq, Repr

/-- `getMessagePlacement(userName, messageId)` from hash.js. The closure
`rand = seededRandom(seed)` starts at state `seed`; the position computation
draws from it first, then the glow intensity takes the next draw. -/
def getMessagePlacement (F : FloatOps) (userName messageId : String) : Placement :=
  let seed := hashCode (userName ++ messageId)
  let partIndex := seed % TREE_PARTS.length
  let treePart := TREE_PARTS.getD partIndex ""
  let ps := getPositionForTreePart F treePart seed (seed : ℚ)
  let position := ps.1
  let r := (seededRandomNext F ps.2).1
  let glowIntensity := 0.5 + r * 0.5
  ⟨treePart, position, glowIntensity⟩

/-- `getNodePosition(userName, messageId)` from hash.js. -/
def getNodePosition (F : FloatOps) (userName messageId : String) : Pos3 :=
  (getMessagePlacement F userName messageId).position

/-! ### storage.js -/

/-- A message as built by the Composer (src/unnamed/part_002, `handleSubmit`):
`{ message_id, userName, message, timestamp, treePart, position,
glowIntensity }`. `timestamp` is the epoch-millisecond instant denoted by the
stored ISO-8601 string. -/
structure Message where
  message_id : String
  userName : String
  message : String
  timestamp : Int
  treePart : String
  position : Pos3
  glowIntensity : ℚ
deriving DecidableEq, Repr

/-- The value stored under `STORAGE_KEY`: either a blob that `JSON.parse`
turns into an array of messages, or corrupt data on which `JSON.parse`
throws. -/
inductive Blob where
  | good : List Message → Blob
  | corrupt : Blob
deriving DecidableEq

/-- The persistence state seen by storage.js: the item under `STORAGE_KEY`
(`none` when absent) and whether `localStorage.setItem` currently throws
(quota exceeded / serialization failure). -/
structure LocalStorage where
  item : Option Blob
  quotaExceeded : Bool
deriving DecidableEq

/-- `getAllMessages()`: `JSON.parse` of the item, with the catch branch
degrading a missing item to `[]` and a parse exception to `[]`. -/
def getAllMessages (st : LocalStorage) : List Message :=
  match st.item with
  | none => []
  | some (Blob.good l) => l
  | some Blob.corrupt => []

/-- `saveMessage(message)`: read all messages, push, write back; the catch
branch turns a `setItem` exception into `false` with the state unchanged.
Returns (success flag, new state). -/
def saveMessage (m : Message) (st : LocalStorage) : Bool × LocalStorage :=
  let messages := getAllMessages st
  if st.quotaExceeded then (false, st)
  else (true, { st with item := some (Blob.good (messages ++ [m])) })

/-- `getMessageById(messageId)`: `messages.find(m => m.message_id === messageId) || null`. -/
def getMessageById (messageId : String) (st : LocalStorage) : Option Message :=
  (getAllMessages st).find? (fun m => m.message_id = messageId)

/-- `getMessageCount()`. -/
def getMessageCount (st : LocalStorage) : Nat :=
  (getAllMessages st).length

/-- `Date.prototype.getFullYear` of an epoch-millisecond instant, in the
timezone at fixed offset `tz` milliseconds from UTC: the proleptic Gregorian
calendar year of the local day containing the instant
(days-to-civil conversion). -/
def jsGetFullYear (tz ms : Int) : Int :=
  let z := (ms + tz).fdiv 86400000 + 719468
  let era := z.fdiv 146097
  let doe := z - era * 146097
  let yoe := (doe - doe / 1460 + doe / 36524 - doe / 146096) / 365
  let y := yoe + era * 400
  let doy := doe - (365 * yoe + yoe / 4 - yoe / 100)
  let mp := (5 * doy + 2) / 153
  let m := mp + (if mp < 10 then 3 else (-9 : Int))
  y + (if m ≤ 2 then 1 else 0)

/-- `getMessagesForYear(year)`: filter by
`new Date(m.timestamp).getFullYear() === year`, in the host timezone `tz`. -/
def getMessagesForYear (tz : Int) (year : Int) (st : LocalStorage) : List Message :=
  (getAllMessages st).filter (fun m => jsGetFullYear tz m.timestamp = year)

/-- Result record of `calculateTier`. -/
structure Tier where
  tier : String
  color : String
  emoji : String
deriving DecidableEq, Repr

/-- `calculateTier(count)` from storage.js. -/
def calculateTier (count : Nat) : Tier :=
  if count ≥ 100000000 then ⟨"White", "#FFFFFF", "🍏"⟩
  else if count ≥ 10000000 then ⟨"Runic", "#9B59B6", "🔮"⟩
  else if count ≥ 1000000 then ⟨"Gold", "#FFD700", "🌟"⟩
  else if count ≥ 100000 then ⟨"Silver", "#C0C0C0", "⚪"⟩
  else ⟨"Red", "#FF6B6B", "🍎"⟩

/-- Position of a tier name in the ascending tier order
Red < Silver < Gold < Runic < White of the threshold table. -/
def tierRank (name : String) : Nat :=
  if name = "Red" then 0
  else if name = "Silver" then 1
  else if name = "Gold" then 2
  else if name = "Runic" then 3
  else 4

/-! ### Yearfruit tier progress (source listing in the repository README) -/

/-- One row of `getTierInfo()`. -/
structure TierInfo where
  tier : String
  threshold : Nat
  emoji : String
deriving DecidableEq, Repr

/-- `getTierInfo()` from the Yearfruit class. -/
def getTierInfo : List TierInfo :=
  [⟨"Red", 0, "🍎"⟩, ⟨"Silver", 100000, "⚪"⟩, ⟨"Gold", 1000000, "🌟"⟩,
   ⟨"Runic", 10000000, "🔮"⟩, ⟨"White", 100000000, "🍏"⟩]

/-- Result record of `getProgressToNextTier`. -/
structure Progress where
  currentTier : String
  nextTier : Option String
  progress : ℚ
  remaining : Int
deriving DecidableEq, Repr

/-- The `for (let i = 0; i < tiers.length - 1; i++)` loop body of
`getProgressToNextTier`: at the first `i` with `count < tiers[i+1].threshold`
return the interpolated record, else fall through. -/
def progressLoop (count : Nat) : List TierInfo → Option Progress
  | t0 :: t1 :: rest =>
      if count < t1.threshold then
        some ⟨t0.tier, some t1.tier,
          min (max (((count : ℚ) - (t0.threshold : ℚ)) /
            ((t1.threshold : ℚ) - (t0.threshold : ℚ))) 0) 1,
          (t1.threshold : Int) - (count : Int)⟩
      else progressLoop count (t1 :: rest)
  | _ => none

/-- `getProgressToNextTier()` from the Yearfruit class, as a function of the
message count it reads: the loop over `getTierInfo()`, with the max-tier
fallthrough `{ currentTier: last tier, nextTier: null, progress: 1,
remaining: 0 }`. -/
def getProgressToNextTier (count : Nat) : Progress :=
  match progressLoop count getTierInfo with
  | some p => p
  | none => ⟨(getTierInfo.getLastD ⟨"", 0, ""⟩).tier, none, 1, 0⟩

/-! ### Shared THREE.js object models for the two NodeSystem variants -/

/-- The geometry objects the two `createGeometry` variants construct, with
their constructor arguments. -/
inductive Geometry where
  | icosahedron (radius : ℚ) (detail : Nat)
  | sphere (radius : ℚ) (widthSegments heightSegments : Nat)
  | lathe (points : List (ℚ × ℚ)) (segments : Nat)
  | cone (radius height : ℚ) (radialSegments : Nat)
  | torus (radius tube : ℚ) (radialSegments tubularSegments : Nat)
  | dodecahedron (radius : ℚ) (detail : Nat)
  | octahedron (radius : ℚ) (detail : Nat)
  | box (width height depth : ℚ)
  | capsule (radius length : ℚ) (capSegments radialSegments : Nat)
deriving DecidableEq

/-- A `THREE.PointLight`; `intensity = none` models the NaN produced by
arithmetic on an undefined intensity. -/
structure PointLight where
  color : Nat
  intensity : Option ℚ
  distance : ℚ
deriving DecidableEq

/-! ### Nodes.js, emotion variant (src/src/scene/Nodes.js) -/

namespace EmotionNodes

/-- One entry of `EMOTION_CONFIG`. -/
structure EmotionConfig where
  color : Nat
  emissive : Nat
  kind : String
  geometry : String
  scale : ℚ
deriving DecidableEq

/-- `EMOTION_CONFIG` from Nodes.js; `none` models the undefined result of an
unknown key. (The JS `type` field is `kind` here.) -/
def EMOTION_CONFIG (emotion : String) : Option EmotionConfig :=
  if emotion = "joy" then some ⟨0x90EE90, 0x4CAF50, "leaf", "icosahedron", 0.3⟩
  else if emotion = "love" then some ⟨0xFFB6C1, 0xFF69B4, "blossom", "sphere", 0.35⟩
  else if emotion = "sadness" then some ⟨0xC0C0C0, 0x808080, "droplet", "teardrop", 0.25⟩
  else if emotion = "anger" then some ⟨0x8B0000, 0xFF0000, "bud", "cone", 0.28⟩
  else if emotion = "confusion" then some ⟨0xDDA0DD, 0x9932CC, "curl", "torus", 0.25⟩
  else if emotion = "secret" then some ⟨0xFFD700, 0xFFA500, "fruit", "dodecahedron", 0.35⟩
  else if emotion = "excitement" then some ⟨0xFFFF00, 0xFFD700, "spark", "octahedron", 0.3⟩
  else none

/-- The seven keys of `EMOTION_CONFIG`. -/
def emotionKeys : List String :=
  ["joy", "love", "sadness", "anger", "confusion", "secret", "excitement"]

/-- A message as consumed by this variant's `addNode`
(`const { message_id, userName, emotion, node_position } = message`). -/
structure Msg where
  message_id : String
  userName : String
  emotion : String
  node_position : Option Pos3
deriving DecidableEq

/-- The `ShaderMaterial` of this variant: its input-dependent uniforms. -/
structure Material where
  baseColor : Nat
  emissiveColor : Nat
  pulsePhase : ℚ
  birthTime : ℚ
deriving DecidableEq

/-- `mesh.userData` as set by `addNode`. -/
structure UserData where
  messageId : String
  message : Msg
  originalPosition : Pos3
  swayPhase : ℚ
  swayAmplitude : ℚ
deriving DecidableEq

/-- A mesh with its attached glow light. -/
structure Mesh where
  geometry : Geometry
  material : Material
  position : Pos3
  userData : UserData
  light : PointLight
deriving DecidableEq

/-- `NodeSystem.createGeometry(emotion)`: reads `EMOTION_CONFIG[emotion]`
unguarded — an unknown emotion dereferences undefined (`none` = TypeError
propagates). The teardrop lathe points use `Math.sin`. -/
def createGeometry (F : FloatOps) (emotion : String) : Option Geometry :=
  match EMOTION_CONFIG emotion with
  | none => none
  | some config =>
    if config.geometry = "icosahedron" then some (.icosahedron config.scale 1)
    else if config.geometry = "sphere" then some (.sphere config.scale 16 16)
    else if config.geometry = "teardrop" then
      some (.lathe ((List.range 11).map (fun i =>
        let t : ℚ := (i : ℚ) / 10
        (F.sin (t * F.pi) * 0.15 * (1 - t * 0.5), t * 0.4 - 0.2))) 12)
    else if config.geometry = "cone" then
      some (.cone (config.scale * 0.6) (config.scale * 1.2) 8)
    else if config.geometry = "torus" then
      some (.torus (config.scale * 0.6) (config.scale * 0.2) 8 16)
    else if config.geometry = "dodecahedron" then some (.dodecahedron config.scale 0)
    else if config.geometry = "octahedron" then some (.octahedron config.scale 0)
    else some (.sphere config.scale 16 16)

/-- `NodeSystem.createMaterial(emotion)`: reads `EMOTION_CONFIG[emotion]`
unguarded; `pulsePhase = Math.random() * Math.PI * 2` is the ambient draw at
index `i`. -/
def createMaterial (F : FloatOps) (amb : Nat → ℚ) (i : Nat) (emotion : String) :
    Option Material :=
  match EMOTION_CONFIG emotion with
  | none => none
  | some config => some ⟨config.color, config.emissive, amb i * F.pi * 2, 0⟩

/-- The mutable parts of a `NodeSystem` instance that `addNode` touches,
plus the position `rngIdx` in the ambient `Math.random` stream `amb`. -/
structure NodeSystem where
  nodes : List (String × Msg)
  meshes : List (String × Mesh)
  scene : List Mesh
  time : ℚ
  rngIdx : Nat
deriving DecidableEq

/-- `NodeSystem.addNode(message)` from Nodes.js: early return (no state
change, nothing allocated, no ambient draw) when a mesh for the id exists;
otherwise geometry, material, mesh, glow light are created and registered.
`none` models a propagated TypeError. -/
def addNode (F : FloatOps) (amb : Nat → ℚ) (msg : Msg) (sys : NodeSystem) :
    Option NodeSystem :=
  if (sys.meshes.find? (fun e => e.1 = msg.message_id)).isSome then some sys
  else
    let position :=
      match msg.node_position with
      | some p => p
      | none => getNodePosition F msg.userName msg.message_id
    match createGeometry F msg.emotion with
    | none => none
    | some geometry =>
      match createMaterial F amb sys.rngIdx msg.emotion with
      | none => none
      | some material0 =>
        let material := { material0 with birthTime := sys.time }
        let userData : UserData :=
          ⟨msg.message_id, msg, position,
           amb (sys.rngIdx + 1) * F.pi * 2,
           0.01 + amb (sys.rngIdx + 2) * 0.02⟩
        match EMOTION_CONFIG msg.emotion with
        | none => none
        | some config =>
          let glow : PointLight := ⟨config.emissive, some 0.3, 2⟩
          let mesh : Mesh := ⟨geometry, material, position, userData, glow⟩
          some { sys with
            scene := sys.scene ++ [mesh],
            meshes := sys.meshes ++ [(msg.message_id, mesh)],
            nodes := sys.nodes ++ [(msg.message_id, msg)],
            rngIdx := sys.rngIdx + 3 }

end EmotionNodes

/-! ### Nodes.js, tree-part inscription variant (src/unnamed/part_004) -/

namespace InscriptionNodes

/-- `MESSAGE_CONFIG` from the inscription variant. -/
structure MessageConfig where
  color : Nat
  emissive : Nat
  scale : ℚ
deriving DecidableEq

/-- The unified golden glow config. -/
def MESSAGE_CONFIG : MessageConfig := ⟨0xffd700, 0xffa500, 0.25⟩

/-- A message as consumed by this variant's `addNode`
(`const { message_id, userName, treePart, position, glowIntensity } =
message`); each of the last three fields may be absent. -/
structure Msg where
  message_id : String
  userName : String
  treePart : Option String
  position : Option Pos3
  glowIntensity : Option ℚ
deriving DecidableEq

/-- JS `a || b` on a possibly-undefined string (empty string is falsy). -/
def jsOrStr : Option String → Option String → Option String
  | some s, b => if s = "" then b else some s
  | none, b => b

/-- JS `a || b` on a possibly-undefined number (0 is falsy). -/
def jsOrQ : Option ℚ → Option ℚ → Option ℚ
  | some x, b => if x = 0 then b else some x
  | none, b => b

/-- JS `a || b` on a possibly-undefined object (objects are truthy). -/
def jsOrPos : Option Pos3 → Option Pos3 → Option Pos3
  | some p, _ => some p
  | none, b => b

/-- The `ShaderMaterial` of this variant: its input-dependent uniforms,
including the `glowIntensity` uniform. -/
structure Material where
  baseColor : Nat
  emissiveColor : Nat
  pulsePhase : ℚ
  glowIntensity : ℚ
  birthTime : ℚ
deriving DecidableEq

/-- `mesh.userData` as set by `addNode`; `message` is
`{ ...message, treePart: part }`. -/
structure UserData where
  messageId : String
  message : Msg
  originalPosition : Pos3
  swayPhase : ℚ
  swayAmplitude : ℚ
deriving DecidableEq

/-- A mesh with its attached glow light. -/
structure Mesh where
  geometry : Geometry
  material : Material
  position : Pos3
  userData : UserData
  light : PointLight
deriving DecidableEq

/-- `NodeSystem.createGeometry(treePart)` from the inscription variant: a
switch with a safe default branch, so every input (including an undefined
tree part) yields a geometry. `none` would model a propagated exception;
this function never returns it. -/
def createGeometry (treePart : Option String) : Option Geometry :=
  let scale := MESSAGE_CONFIG.scale
  if treePart = some "trunk" then some (.box (scale * 1.5) (scale * 2) (scale * 0.3))
  else if treePart = some "branch" then some (.capsule (scale * 0.3) (scale * 1.2) 4 8)
  else if treePart = some "leaf" then some (.sphere scale 8 8)
  else if treePart = some "root" then some (.torus (scale * 0.6) (scale * 0.2) 6 12)
  else some (.sphere scale 16 16)

/-- `NodeSystem.createMaterial(glowIntensity = 1.0)`: the default parameter
applies when the argument is undefined; `pulsePhase` is the ambient draw at
index `i`. -/
def createMaterial (F : FloatOps) (amb : Nat → ℚ) (i : Nat)
    (glowIntensity : Option ℚ) : Material :=
  ⟨MESSAGE_CONFIG.color, MESSAGE_CONFIG.emissive, amb i * F.pi * 2,
   glowIntensity.getD 1.0, 0⟩

/-- The mutable parts of this variant's `NodeSystem` instance that `addNode`
touches, plus the position `rngIdx` in the ambient `Math.random` stream. -/
structure NodeSystem where
  nodes : List (String × Msg)
  meshes : List (String × Mesh)
  scene : List Mesh
  time : ℚ
  rngIdx : Nat
deriving DecidableEq

/-- `NodeSystem.addNode(message)` from the inscription variant: early return
when a mesh for the id exists; otherwise the placement is the given fields
when `position` is present, else `getMessagePlacement`, each field then
combined with `||`. The glow light intensity is `intensity * 0.3` on the
possibly-undefined raw value. -/
def addNode (F : FloatOps) (amb : Nat → ℚ) (msg : Msg) (sys : NodeSystem) :
    Option NodeSystem :=
  if (sys.meshes.find? (fun e => e.1 = msg.message_id)).isSome then some sys
  else
    let placement : Option String × Option Pos3 × Option ℚ :=
      match msg.position with
      | some _ => (msg.treePart, msg.position, msg.glowIntensity)
      | none =>
        let pl := getMessagePlacement F msg.userName msg.message_id
        (some pl.treePart, some pl.position, some pl.glowIntensity)
    let part := jsOrStr msg.treePart placement.1
    let pos := jsOrPos msg.position placement.2.1
    let intensity := jsOrQ msg.glowIntensity placement.2.2
    match createGeometry part with
    | none => none
    | some geometry =>
      let material0 := createMaterial F amb sys.rngIdx intensity
      let material := { material0 with birthTime := sys.time }
      match pos with
      | none => none
      | some p =>
        let userData : UserData :=
          ⟨msg.message_id, { msg with treePart := part }, p,
           amb (sys.rngIdx + 1) * F.pi * 2,
           0.01 + amb (sys.rngIdx + 2) * 0.02⟩
        let glow : PointLight :=
          ⟨MESSAGE_CONFIG.emissive, intensity.map (fun x => x * 0.3), 2⟩
        let mesh : Mesh := ⟨geometry, material, p, userData, glow⟩
        some { sys with
          scene := sys.scene ++ [mesh],
          meshes := sys.meshes ++ [(msg.message_id, mesh)],
          nodes := sys.nodes ++ [(msg.message_id, { msg with treePart := part })],
          rngIdx := sys.rngIdx + 3 }

end InscriptionNodes

/-- An arbitrary concrete interpretation of the numeric primitives, used to
instantiate universally quantified statements at a computable point. -/
def anyFloatOps : FloatOps := ⟨fun _ => 0, fun _ => 0, fun _ => 0, 3⟩

/-- An arbitrary concrete ambient `Math.random` stream. -/
def anyAmb : Nat → ℚ := fun _ => 1 / 2

/-! ### Concrete instances and harness definitions used by the theorems -/

/-- A sequence of `getMessagePlacement` calls (a call history): the result of
each call in order. -/
def placeMany (F : FloatOps) (calls : List (String × String)) : List Placement :=
  calls.map (fun c => getMessagePlacement F c.1 c.2)

/-- A call-sequence of `saveMessage`, each call on the state the previous one
left (ignoring the returned flags). -/
def saveAll (msgs : List Message) (st : LocalStorage) : LocalStorage :=
  msgs.foldl (fun s m => (saveMessage m s).2) st

/-- The empty persistence state: nothing stored, writes succeed. -/
def emptyStore : LocalStorage := ⟨none, false⟩

/-- A concrete message. -/
def msgA : Message := ⟨"m1", "Alice", "hi", 1704067199000, "trunk", ⟨0, 1, 0⟩, 3/4⟩

/-- A concrete message with the same `message_id` as `msgA` but different
content. -/
def msgB : Message := ⟨"m1", "Bob", "other text", 1704067200000, "leaf", ⟨1, 8, 2⟩, 1/2⟩

/-- A concrete message with a `message_id` distinct from `msgA`'s. -/
def msgC : Message := ⟨"m2", "Carol", "third", 1700000000000, "root", ⟨2, 0, 1⟩, 2/3⟩

/-- A concrete message for the emotion-variant node system, with a valid
emotion. -/
def emoMsg0 : EmotionNodes.Msg := ⟨"m1", "Alice", "joy", some ⟨0, 1, 0⟩⟩

/-- A concrete emotion-variant message whose emotion is not an
`EMOTION_CONFIG` key. -/
def emoMsgBad : EmotionNodes.Msg := ⟨"m2", "Alice", "wrath", some ⟨0, 1, 0⟩⟩

/-- An empty emotion-variant node system. -/
def emoSys0 : EmotionNodes.NodeSystem := ⟨[], [], [], 0, 0⟩

/-- The emotion-variant system after one successful `addNode` of `emoMsg0`. -/
def emoSys1 : EmotionNodes.NodeSystem :=
  (EmotionNodes.addNode anyFloatOps anyAmb emoMsg0 emoSys0).getD emoSys0

/-- A concrete message for the inscription-variant node system. -/
def insMsg0 : InscriptionNodes.Msg :=
  ⟨"m1", "Alice", some "trunk", some ⟨0, 1, 0⟩, some 1⟩

/-- An empty inscription-variant node system. -/
def insSys0 : InscriptionNodes.NodeSystem := ⟨[], [], [], 0, 0⟩

/-- The inscription-variant system after one successful `addNode` of
`insMsg0`. -/
def insSys1 : InscriptionNodes.NodeSystem :=
  (InscriptionNodes.addNode anyFloatOps anyAmb insMsg0 insSys0).getD insSys0

/-! ### Helper lemmas -/

/-- `find?` skips a prefix on which the predicate fails. -/
lemma find?_append_of_none {α : Type} (p : α → Bool) (l1 l2 : List α)
    (h : l1.find? p = none) : (l1 ++ l2).find? p = l2.find? p := by
  induction l1 with
  | nil => simp
  | cons a t ih =>
      rw [List.find?_eq_none] at h
      have hpa : ¬ p a = true := h a (List.mem_cons_self a t)
      rw [List.cons_append, List.find?_cons_of_neg _ hpa]
      exact ih (List.find?_eq_none.mpr fun x hx => h x (List.mem_cons_of_mem a hx))

/-- When `setItem` does not throw, `saveMessage` succeeds and appends. -/
lemma saveMessage_ok (m : Message) (item : Option Blob) :
    saveMessage m ⟨item, false⟩ =
      (true, ⟨some (Blob.good (getAllMessages ⟨item, false⟩ ++ [m])), false⟩) := by
  simp [saveMessage]

/-- A `saveMessage` sequence over a healthy store appends in call order. -/
lemma saveAll_good (msgs acc : List Message) :
    saveAll msgs ⟨some (Blob.good acc), false⟩ = ⟨some (Blob.good (acc ++ msgs)), false⟩ := by
  induction msgs generalizing acc with
  | nil => simp [saveAll]
  | cons m t ih =>
      show saveAll t (saveMessage m ⟨some (Blob.good acc), false⟩).2 = _
      simp only [saveMessage, getAllMessages]
      simpa using ih (acc ++ [m])

/-- Emotion variant: `addNode` on an id that already has a mesh is the
identity. -/
lemma emotion_addNode_guard (F : FloatOps) (amb : Nat → ℚ) (msg : EmotionNodes.Msg)
    (sys : EmotionNodes.NodeSystem)
    (hg : (sys.meshes.find? (fun e => e.1 = msg.message_id)).isSome) :
    EmotionNodes.addNode F amb msg sys = some sys := by
  unfold EmotionNodes.addNode
  rw [if_pos hg]

/-- Emotion variant: a successful `addNode` either found the mesh already
(state unchanged) or appended exactly one mesh entry for this id. -/
lemma emotion_addNode_shape (F : FloatOps) (amb : Nat → ℚ) (msg : EmotionNodes.Msg)
    (sys sys1 : EmotionNodes.NodeSystem)
    (h : EmotionNodes.addNode F amb msg sys = some sys1) :
    sys1 = sys ∨ ∃ mesh, sys1.meshes = sys.meshes ++ [(msg.message_id, mesh)] := by
  unfold EmotionNodes.addNode at h
  split at h
  · exact Or.inl (Option.some.inj h).symm
  · right
    rcases hcg : EmotionNodes.createGeometry F msg.emotion with _ | g <;> rw [hcg] at h
    · simp at h
    · rcases hcm : EmotionNodes.createMaterial F amb sys.rngIdx msg.emotion with _ | mat <;>
        rw [hcm] at h
      · simp at h
      · rcases hcf : EmotionNodes.EMOTION_CONFIG msg.emotion with _ | cfg <;> rw [hcf] at h
        · simp at h
        · dsimp only at h
          cases Option.some.inj h
          exact ⟨_, rfl⟩

/-- Emotion variant: after a successful `addNode`, a mesh for the id is
registered. -/
lemma emotion_addNode_isSome_after (F : FloatOps) (amb : Nat → ℚ)
    (msg : EmotionNodes.Msg) (sys sys1 : EmotionNodes.NodeSystem)
    (h : EmotionNodes.addNode F amb msg sys = some sys1) :
    (sys1.meshes.find? (fun e => e.1 = msg.message_id)).isSome := by
  rcases emotion_addNode_shape F amb msg sys sys1 h with rfl | ⟨mesh, hm⟩
  · by_contra hg
    unfold EmotionNodes.addNode at h
    rw [if_neg hg] at h
    rcases hcg : EmotionNodes.createGeometry F msg.emotion with _ | g <;> rw [hcg] at h
    · simp at h
    · rcases hcm : EmotionNodes.createMaterial F amb sys1.rngIdx msg.emotion with _ | mat <;>
        rw [hcm] at h
      · simp at h
      · rcases hcf : EmotionNodes.EMOTION_CONFIG msg.emotion with _ | cfg <;> rw [hcf] at h
        · simp at h
        · dsimp only at h
          have hr := congrArg EmotionNodes.NodeSystem.rngIdx (Option.some.inj h)
          dsimp at hr
          omega
  · rw [hm, List.find?_isSome]
    exact ⟨(msg.message_id, mesh), by simp⟩

/-- Emotion variant: a successful `addNode` on a fresh id leaves exactly one
mesh entry for that id. -/
lemma emotion_addNode_fresh_count (F : FloatOps) (amb : Nat → ℚ)
    (msg : EmotionNodes.Msg) (sys sys1 : EmotionNodes.NodeSystem)
    (hfresh : (sys.meshes.find? (fun e => e.1 = msg.message_id)) = none)
    (h : EmotionNodes.addNode F amb msg sys = some sys1) :
    (sys1.meshes.filter (fun e => e.1 = msg.message_id)).length = 1 := by
  rcases emotion_addNode_shape F amb msg sys sys1 h with rfl | ⟨mesh, hm⟩
  · have := emotion_addNode_isSome_after F amb msg sys1 sys1 h
    rw [hfresh] at this
    simp at this
  · rw [hm, List.filter_append]
    have h0 : sys.meshes.filter (fun e => e.1 = msg.message_id) = [] := by
      rw [List.filter_eq_nil_iff]
      rw [List.find?_eq_none] at hfresh
      exact hfresh
    rw [h0]
    simp

/-- Inscription variant: `addNode` on an id that already has a mesh is the
identity. -/
lemma inscription_addNode_guard (F : FloatOps) (amb : Nat → ℚ)
    (msg : InscriptionNodes.Msg) (sys : InscriptionNodes.NodeSystem)
    (hg : (sys.meshes.find? (fun e => e.1 = msg.message_id)).isSome) :
    InscriptionNodes.addNode F amb msg sys = some sys := by
  unfold InscriptionNodes.addNode
  rw [if_pos hg]

/-- Inscription variant: a successful `addNode` either found the mesh already
or appended exactly one mesh entry for this id. -/
lemma inscription_addNode_shape (F : FloatOps) (amb : Nat → ℚ)
    (msg : InscriptionNodes.Msg) (sys sys1 : InscriptionNodes.NodeSystem)
    (h : InscriptionNodes.addNode F amb msg sys = some sys1) :
    sys1 = sys ∨ ∃ mesh, sys1.meshes = sys.meshes ++ [(msg.message_id, mesh)] := by
  unfold InscriptionNodes.addNode at h
  split at h
  · exact Or.inl (Option.some.inj h).symm
  · right
    dsimp only at h
    split at h
    · simp at h
    · split at h
      · simp at h
      · cases Option.some.inj h
        exact ⟨_, rfl⟩

/-- Inscription variant: after a successful `addNode`, a mesh for the id is
registered. -/
lemma inscription_addNode_isSome_after (F : FloatOps) (amb : Nat → ℚ)
    (msg : InscriptionNodes.Msg) (sys sys1 : InscriptionNodes.NodeSystem)
    (h : InscriptionNodes.addNode F amb msg sys = some sys1) :
    (sys1.meshes.find? (fun e => e.1 = msg.message_id)).isSome := by
  rcases inscription_addNode_shape F amb msg sys sys1 h with rfl | ⟨mesh, hm⟩
  · by_contra hg
    unfold InscriptionNodes.addNode at h
    rw [if_neg hg] at h
    dsimp only at h
    split at h
    · simp at h
    · split at h
      · simp at h
      · have hr := congrArg InscriptionNodes.NodeSystem.rngIdx (Option.some.inj h)
        dsimp at hr
        omega
  · rw [hm, List.find?_isSome]
    exact ⟨(msg.message_id, mesh), by simp⟩

/-- Inscription variant: a successful `addNode` on a fresh id leaves exactly
one mesh entry for that id. -/
lemma inscription_addNode_fresh_count (F : FloatOps) (amb : Nat → ℚ)
    (msg : InscriptionNodes.Msg) (sys sys1 : InscriptionNodes.NodeSystem)
    (hfresh : (sys.meshes.find? (fun e => e.1 = msg.message_id)) = none)
    (h : InscriptionNodes.addNode F amb msg sys = some sys1) :
    (sys1.meshes.filter (fun e => e.1 = msg.message_id)).length = 1 := by
  rcases inscription_addNode_shape F amb msg sys sys1 h with rfl | ⟨mesh, hm⟩
  · have := inscription_addNode_isSome_after F amb msg sys1 sys1 h
    rw [hfresh] at this
    simp at this
  · rw [hm, List.filter_append]
    have h0 : sys.meshes.filter (fun e => e.1 = msg.message_id) = [] := by
      rw [List.filter_eq_nil_iff]
      rw [List.find?_eq_none] at hfresh
      exact hfresh
    rw [h0]
    simp

/-- `EMOTION_CONFIG` is defined exactly on the seven emotion keys. -/
lemma emotion_config_isSome_iff (e : String) :
    (EmotionNodes.EMOTION_CONFIG e).isSome ↔ e ∈ EmotionNodes.emotionKeys := by
  unfold EmotionNodes.EMOTION_CONFIG EmotionNodes.emotionKeys
  split_ifs <;> simp_all

/-- Emotion variant: with a defined config, `createGeometry` returns a
geometry. -/
lemma emotion_createGeometry_some (F : FloatOps) (e : String)
    (c : EmotionNodes.EmotionConfig) (hc : EmotionNodes.EMOTION_CONFIG e = some c) :
    ∃ g, EmotionNodes.createGeometry F e = some g := by
  unfold EmotionNodes.createGeometry
  rw [hc]
  dsimp only
  split_ifs <;> exact ⟨_, rfl⟩

/-- Inscription variant: `createGeometry` succeeds on every input (the switch
has a safe default). -/
lemma inscription_createGeometry_isSome (part : Option String) :
    (InscriptionNodes.createGeometry part).isSome := by
  unfold InscriptionNodes.createGeometry
  split_ifs <;> rfl

/-! ### Claim theorems -/

/-- C1: Placement determinism. For every pair of strings (userName,
messageId) and every interpretation of the numeric primitives, two calls to
`getMessagePlacement` return identical outputs — the same treePart, the same
position and the same glowIntensity — and the result of a call is independent
of the call history: within any sequence of placement calls, the call at
(userName, messageId) yields the same output as a fresh standalone call. -/
theorem getMessagePlacement_deterministic (F : FloatOps) (userName messageId : String)
    (pre post : List (String × String)) :
    getMessagePlacement F userName messageId = getMessagePlacement F userName messageId ∧
    (getMessagePlacement F userName messageId).treePart
      = (getMessagePlacement F userName messageId).treePart ∧
    (getMessagePlacement F userName messageId).position
      = (getMessagePlacement F userName messageId).position ∧
    (getMessagePlacement F userName messageId).glowIntensity
      = (getMessagePlacement F userName messageId).glowIntensity ∧
    placeMany F (pre ++ (userName, messageId) :: post)
      = placeMany F pre ++ getMessagePlacement F userName messageId :: placeMany F post :=
  ⟨rfl, rfl, rfl, rfl, by simp [placeMany]⟩

/-- C2: Category choice is a function of the seed alone. The treePart of
`getMessagePlacement(userName, messageId)` is the element at index
`hashCode(userName + messageId) mod 4` of the fixed ordered list
['trunk', 'branch', 'leaf', 'root'], and it is the same under any two
interpretations of the numeric primitives — hence independent of every value
drawn from the seeded random stream. -/
theorem treePart_eq_seed_mod_four (F G : FloatOps) (userName messageId : String) :
    (getMessagePlacement F userName messageId).treePart
      = ["trunk", "branch", "leaf", "root"].getD (hashCode (userName ++ messageId) % 4) "" ∧
    (getMessagePlacement F userName messageId).treePart
      = (getMessagePlacement G userName messageId).treePart :=
  ⟨rfl, rfl⟩

/-- C3 counterexample: the claim fails for a prior store that already holds a
different message with the same id. After a successful `saveMessage(msgB)`
over a store holding `msgA` (same `message_id` "m1", different content),
`getMessageById("m1")` returns the earlier `msgA`, not `msgB`. -/
theorem getMessageById_after_save_duplicate_id :
    (saveMessage msgB ⟨some (Blob.good [msgA]), false⟩).1 = true ∧
    msgB.message_id = msgA.message_id ∧ msgB ≠ msgA ∧
    getMessageById msgB.message_id (saveMessage msgB ⟨some (Blob.good [msgA]), false⟩).2
      ≠ some msgB := by decide

/-- C3 (amended): for any valid message m whose `message_id` does not occur
among the already-stored messages, after a successful `saveMessage(m)`,
`getMessageById(m.message_id)` returns m, for any such prior store
contents. -/
theorem saveMessage_then_getMessageById (st : LocalStorage) (m : Message)
    (hfresh : ∀ m2 ∈ getAllMessages st, m2.message_id ≠ m.message_id)
    (hok : (saveMessage m st).1 = true) :
    getMessageById m.message_id (saveMessage m st).2 = some m := by
  obtain ⟨item, quota⟩ := st
  cases quota
  · rw [saveMessage_ok]
    simp only [getMessageById, getAllMessages]
    rw [find?_append_of_none]
    · simp
    · rw [List.find?_eq_none]
      intro x hx
      simpa using hfresh x hx
  · simp [saveMessage] at hok

/-- Witness for the amended C3 theorem at a concrete input. -/
theorem saveMessage_then_getMessageById_witness :
    (∀ m2 ∈ getAllMessages emptyStore, m2.message_id ≠ msgA.message_id) ∧
    (saveMessage msgA emptyStore).1 = true ∧
    getMessageById msgA.message_id (saveMessage msgA emptyStore).2 = some msgA :=
  ⟨by decide, by decide,
   saveMessage_then_getMessageById emptyStore msgA (by decide) (by decide)⟩

/-- C4: Tier thresholds and monotonicity. `calculateTier` is non-decreasing
in the tier order Red < Silver < Gold < Runic < White as the count increases,
and switches exactly at each threshold: 0 and 99999 are Red, 100000 is
Silver, 1000000 is Gold, 10000000 is Runic, 100000000 is White. -/
theorem calculateTier_monotone_and_thresholds :
    (∀ a b : Nat, a ≤ b → tierRank (calculateTier a).tier ≤ tierRank (calculateTier b).tier) ∧
    (calculateTier 0).tier = "Red" ∧ (calculateTier 99999).tier = "Red" ∧
    (calculateTier 100000).tier = "Silver" ∧ (calculateTier 1000000).tier = "Gold" ∧
    (calculateTier 10000000).tier = "Runic" ∧ (calculateTier 100000000).tier = "White" := by
  have h : ∀ n : Nat, tierRank (calculateTier n).tier =
      if n ≥ 100000000 then 4 else if n ≥ 10000000 then 3 else if n ≥ 1000000 then 2
      else if n ≥ 100000 then 1 else 0 := by
    intro n
    unfold calculateTier tierRank
    split_ifs <;> simp_all
  refine ⟨?_, by decide, by decide, by decide, by decide, by decide, by decide⟩
  intro a b hab
  rw [h a, h b]
  split_ifs <;> omega

/-- Witness for C4 monotonicity at a concrete input across the Red/Silver
threshold. -/
theorem calculateTier_monotone_witness :
    tierRank (calculateTier 99999).tier ≤ tierRank (calculateTier 100000).tier :=
  calculateTier_monotone_and_thresholds.1 99999 100000 (by decide)

/-- C5: Store error containment and append atomicity. When the stored item is
absent or corrupt, `getAllMessages` returns the empty list; when the write
rejects, `saveMessage` returns false with the state unchanged; whenever
`saveMessage` reports failure the state is unchanged; and on success the
stored sequence is exactly the old one with the message appended. No
operation propagates an exception (all are total functions). -/
theorem store_error_containment (st : LocalStorage) (m : Message) :
    ((st.item = none ∨ st.item = some Blob.corrupt) → getAllMessages st = []) ∧
    (st.quotaExceeded = true → saveMessage m st = (false, st)) ∧
    ((saveMessage m st).1 = false → (saveMessage m st).2 = st) ∧
    ((saveMessage m st).1 = true →
      getAllMessages (saveMessage m st).2 = getAllMessages st ++ [m]) := by
  obtain ⟨item, quota⟩ := st
  refine ⟨?_, ?_, ?_, ?_⟩
  · rintro (h | h) <;> simp_all [getAllMessages]
  · intro h; simp_all [saveMessage]
  · cases quota <;> simp [saveMessage]
  · cases quota <;> simp [saveMessage, getAllMessages]

/-- Witness for C5 at concrete inputs: a corrupt item reads as empty, a
throwing write fails with the state unchanged, and a successful write over
the empty store appends. -/
theorem store_error_containment_witness :
    getAllMessages ⟨some Blob.corrupt, true⟩ = [] ∧
    saveMessage msgA ⟨some Blob.corrupt, true⟩ = (false, ⟨some Blob.corrupt, true⟩) ∧
    (saveMessage msgA ⟨some Blob.corrupt, true⟩).2 = ⟨some Blob.corrupt, true⟩ ∧
    getAllMessages (saveMessage msgA emptyStore).2 = getAllMessages emptyStore ++ [msgA] :=
  ⟨(store_error_containment ⟨some Blob.corrupt, true⟩ msgA).1 (Or.inr rfl),
   (store_error_containment ⟨some Blob.corrupt, true⟩ msgA).2.1 rfl,
   (store_error_containment ⟨some Blob.corrupt, true⟩ msgA).2.2.1 (by decide),
   (store_error_containment emptyStore msgA).2.2.2 (by decide)⟩

/-- C6 counterexample: `saveMessage` does not enforce uniqueness. Starting
from the empty store, saving the same message twice yields a stored sequence
with two entries sharing one `message_id`. -/
theorem saveMessage_duplicate_breaks_uniqueness :
    getAllMessages (saveAll [msgA, msgA] emptyStore) = [msgA, msgA] ∧
    ¬ ((getAllMessages (saveAll [msgA, msgA] emptyStore)).map Message.message_id).Nodup :=
  ⟨rfl, by decide⟩

/-- C6 (amended): after any sequence of `saveMessage` operations with
pairwise-distinct message ids starting from the empty store, the stored
sequence is exactly the saved messages in insertion order, and no two stored
messages share a `message_id`. -/
theorem store_unique_by_id_of_distinct_ids (msgs : List Message)
    (hnodup : (msgs.map Message.message_id).Nodup) :
    getAllMessages (saveAll msgs emptyStore) = msgs ∧
    ((getAllMessages (saveAll msgs emptyStore)).map Message.message_id).Nodup := by
  have e : getAllMessages (saveAll msgs emptyStore) = msgs := by
    cases msgs with
    | nil => rfl
    | cons m t =>
        show getAllMessages (saveAll t (saveMessage m emptyStore).2) = m :: t
        have h1 : (saveMessage m emptyStore).2 = ⟨some (Blob.good [m]), false⟩ := by
          simp [saveMessage, emptyStore, getAllMessages]
        rw [h1, saveAll_good]
        simp [getAllMessages]
  refine ⟨e, ?_⟩
  rw [e]
  exact hnodup

/-- Witness for the amended C6 theorem at a concrete input. -/
theorem store_unique_by_id_witness :
    ([msgA, msgC].map Message.message_id).Nodup ∧
    getAllMessages (saveAll [msgA, msgC] emptyStore) = [msgA, msgC] ∧
    ((getAllMessages (saveAll [msgA, msgC] emptyStore)).map Message.message_id).Nodup :=
  ⟨by decide, (store_unique_by_id_of_distinct_ids [msgA, msgC] (by decide)).1,
   (store_unique_by_id_of_distinct_ids [msgA, msgC] (by decide)).2⟩

/-- C7: Year filter correctness. For every timezone offset, year and store
state, `getMessagesForYear(Y)` is exactly the filter of `getAllMessages()` by
"the timestamp's calendar year is Y": it is a subsequence of the stored order
and contains a message iff it is stored and its year matches; at the
calendar-year boundary, Dec 31 2023 23:59:59 UTC maps to 2023 and
Jan 1 2024 00:00:00 UTC maps to 2024. -/
theorem getMessagesForYear_filter_spec (tz year : Int) (st : LocalStorage) :
    getMessagesForYear tz year st
      = (getAllMessages st).filter (fun m => jsGetFullYear tz m.timestamp = year) ∧
    (getMessagesForYear tz year st).Sublist (getAllMessages st) ∧
    (∀ m, m ∈ getMessagesForYear tz year st ↔
      m ∈ getAllMessages st ∧ jsGetFullYear tz m.timestamp = year) ∧
    jsGetFullYear 0 1704067199000 = 2023 ∧ jsGetFullYear 0 1704067200000 = 2024 := by
  refine ⟨rfl, List.filter_sublist _, ?_, by decide, by decide⟩
  intro m
  simp [getMessagesForYear, List.mem_filter]

/-- C8: Idempotent node creation, in both variants. After a successful
`addNode` produced state sys1, any later `addNode` with the same message —
under any interpretation of the numeric primitives and any ambient
`Math.random` stream — returns sys1 unchanged: no mesh is created, no map
entry registered, no ambient draw consumed, nothing allocated. Moreover a
successful `addNode` on a fresh id leaves exactly one live mesh for that
id. -/
theorem addNode_idempotent :
    (∀ (F F2 : FloatOps) (amb amb2 : Nat → ℚ) (msg : EmotionNodes.Msg)
       (sys sys1 : EmotionNodes.NodeSystem),
       EmotionNodes.addNode F amb msg sys = some sys1 →
       EmotionNodes.addNode F2 amb2 msg sys1 = some sys1) ∧
    (∀ (F F2 : FloatOps) (amb amb2 : Nat → ℚ) (msg : InscriptionNodes.Msg)
       (sys sys1 : InscriptionNodes.NodeSystem),
       InscriptionNodes.addNode F amb msg sys = some sys1 →
       InscriptionNodes.addNode F2 amb2 msg sys1 = some sys1) ∧
    (∀ (F : FloatOps) (amb : Nat → ℚ) (msg : EmotionNodes.Msg)
       (sys sys1 : EmotionNodes.NodeSystem),
       (sys.meshes.find? (fun e => e.1 = msg.message_id)) = none →
       EmotionNodes.addNode F amb msg sys = some sys1 →
       (sys1.meshes.filter (fun e => e.1 = msg.message_id)).length = 1) ∧
    (∀ (F : FloatOps) (amb : Nat → ℚ) (msg : InscriptionNodes.Msg)
       (sys sys1 : InscriptionNodes.NodeSystem),
       (sys.meshes.find? (fun e => e.1 = msg.message_id)) = none →
       InscriptionNodes.addNode F amb msg sys = some sys1 →
       (sys1.meshes.filter (fun e => e.1 = msg.message_id)).length = 1) :=
  ⟨fun F F2 amb amb2 msg sys sys1 h =>
     emotion_addNode_guard F2 amb2 msg sys1 (emotion_addNode_isSome_after F amb msg sys sys1 h),
   fun F F2 amb amb2 msg sys sys1 h =>
     inscription_addNode_guard F2 amb2 msg sys1
       (inscription_addNode_isSome_after F amb msg sys sys1 h),
   fun F amb msg sys sys1 hfresh h => emotion_addNode_fresh_count F amb msg sys sys1 hfresh h,
   fun F amb msg sys sys1 hfresh h =>
     inscription_addNode_fresh_count F amb msg sys sys1 hfresh h⟩

/-- Witness for C8 at concrete inputs: repeating `addNode` after a concrete
successful first call is the identity, and the fresh-id call leaves exactly
one mesh entry, in both variants. -/
theorem addNode_idempotent_witness :
    EmotionNodes.addNode anyFloatOps anyAmb emoMsg0 emoSys1 = some emoSys1 ∧
    InscriptionNodes.addNode anyFloatOps anyAmb insMsg0 insSys1 = some insSys1 ∧
    (emoSys1.meshes.filter (fun e => e.1 = emoMsg0.message_id)).length = 1 ∧
    (insSys1.meshes.filter (fun e => e.1 = insMsg0.message_id)).length = 1 :=
  ⟨addNode_idempotent.1 anyFloatOps anyFloatOps anyAmb anyAmb emoMsg0 emoSys0 emoSys1 rfl,
   addNode_idempotent.2.1 anyFloatOps anyFloatOps anyAmb anyAmb insMsg0 insSys0 insSys1 rfl,
   addNode_idempotent.2.2.1 anyFloatOps anyAmb emoMsg0 emoSys0 emoSys1 rfl rfl,
   addNode_idempotent.2.2.2 anyFloatOps anyAmb insMsg0 insSys0 insSys1 rfl rfl⟩

/-- C10: Implicit safety precondition on node creation in the emotion
variant. If the message's emotion is one of the seven `EMOTION_CONFIG` keys,
`addNode` completes (no undefined dereference); if the emotion is not a key
and no mesh for the id exists yet, the unguarded `EMOTION_CONFIG[emotion]`
read in `createGeometry` makes `addNode` throw. `EMOTION_CONFIG` is defined
exactly on those seven keys. By contrast the tree-part variant is total: its
`createGeometry` has a safe default for every input and its `addNode` always
completes. -/
theorem addNode_emotion_precondition :
    (∀ (F : FloatOps) (amb : Nat → ℚ) (msg : EmotionNodes.Msg)
       (sys : EmotionNodes.NodeSystem),
       msg.emotion ∈ EmotionNodes.emotionKeys →
       (EmotionNodes.addNode F amb msg sys).isSome) ∧
    (∀ (F : FloatOps) (amb : Nat → ℚ) (msg : EmotionNodes.Msg)
       (sys : EmotionNodes.NodeSystem),
       msg.emotion ∉ EmotionNodes.emotionKeys →
       (sys.meshes.find? (fun e => e.1 = msg.message_id)) = none →
       EmotionNodes.addNode F amb msg sys = none) ∧
    (∀ e, (EmotionNodes.EMOTION_CONFIG e).isSome ↔ e ∈ EmotionNodes.emotionKeys) ∧
    (∀ part, (InscriptionNodes.createGeometry part).isSome) ∧
    (∀ (F : FloatOps) (amb : Nat → ℚ) (msg : InscriptionNodes.Msg)
       (sys : InscriptionNodes.NodeSystem),
       (InscriptionNodes.addNode F amb msg sys).isSome) := by
  refine ⟨?_, ?_, emotion_config_isSome_iff, inscription_createGeometry_isSome, ?_⟩
  · intro F amb msg sys hk
    by_cases hg : (sys.meshes.find? (fun e => e.1 = msg.message_id)).isSome
    · unfold EmotionNodes.addNode
      rw [if_pos hg]
      rfl
    · obtain ⟨c, hc⟩ := Option.isSome_iff_exists.mp ((emotion_config_isSome_iff msg.emotion).mpr hk)
      obtain ⟨g, hgeo⟩ := emotion_createGeometry_some F msg.emotion c hc
      unfold EmotionNodes.addNode
      rw [if_neg hg]
      dsimp only
      rw [hgeo]
      unfold EmotionNodes.createMaterial
      rw [hc]
      dsimp only
      rfl
  · intro F amb msg sys hk hfresh
    have hc : EmotionNodes.EMOTION_CONFIG msg.emotion = none := by
      by_contra hne
      exact hk ((emotion_config_isSome_iff msg.emotion).mp (Option.isSome_iff_ne_none.mpr hne))
    have hgeo : EmotionNodes.createGeometry F msg.emotion = none := by
      unfold EmotionNodes.createGeometry
      rw [hc]
    unfold EmotionNodes.addNode
    rw [if_neg (by simp [hfresh])]
    dsimp only
    rw [hgeo]
  · intro F amb msg sys
    by_cases hg : (sys.meshes.find? (fun e => e.1 = msg.message_id)).isSome
    · unfold InscriptionNodes.addNode
      rw [if_pos hg]
      rfl
    · unfold InscriptionNodes.addNode
      rw [if_neg hg]
      dsimp only
      rcases hp : msg.position with _ | p <;> dsimp only
      · obtain ⟨g, hgeo⟩ := Option.isSome_iff_exists.mp (inscription_createGeometry_isSome
          (InscriptionNodes.jsOrStr msg.treePart
            (some (getMessagePlacement F msg.userName msg.message_id).treePart)))
        rw [hgeo]
        simp [InscriptionNodes.jsOrPos]
      · obtain ⟨g, hgeo⟩ := Option.isSome_iff_exists.mp (inscription_createGeometry_isSome
          (InscriptionNodes.jsOrStr msg.treePart msg.treePart))
        rw [hgeo]
        simp [InscriptionNodes.jsOrPos]

/-- Witness for C10 at concrete inputs: a valid emotion succeeds, an unknown
emotion on a fresh id throws. -/
theorem addNode_emotion_precondition_witness :
    emoMsg0.emotion ∈ EmotionNodes.emotionKeys ∧
    (EmotionNodes.addNode anyFloatOps anyAmb emoMsg0 emoSys0).isSome ∧
    emoMsgBad.emotion ∉ EmotionNodes.emotionKeys ∧
    EmotionNodes.addNode anyFloatOps anyAmb emoMsgBad emoSys0 = none :=
  ⟨by decide,
   addNode_emotion_precondition.1 anyFloatOps anyAmb emoMsg0 emoSys0 (by decide),
   by decide,
   addNode_emotion_precondition.2.1 anyFloatOps anyAmb emoMsgBad emoSys0 (by decide) rfl⟩

/-- C9: Tier progress. `getProgressToNextTier(count)` always reports a
fraction in [0, 1]; its current tier agrees with `calculateTier`; at or above
the final 100000000 threshold the next tier is none and the fraction is 1;
below it the next tier is present and a positive remaining count is
reported. -/
theorem getProgressToNextTier_spec (count : Nat) :
    0 ≤ (getProgressToNextTier count).progress ∧
    (getProgressToNextTier count).progress ≤ 1 ∧
    (getProgressToNextTier count).currentTier = (calculateTier count).tier ∧
    (count ≥ 100000000 →
      (getProgressToNextTier count).nextTier = none ∧
      (getProgressToNextTier count).progress = 1) ∧
    (count < 100000000 →
      (getProgressToNextTier count).nextTier.isSome ∧
      0 < (getProgressToNextTier count).remaining) := by
  by_cases h1 : count < 100000
  · have e : getProgressToNextTier count =
        ⟨"Red", some "Silver",
          min (max (((count : ℚ) - ((0 : Nat) : ℚ)) / (((100000 : Nat) : ℚ) - ((0 : Nat) : ℚ))) 0) 1,
          ((100000 : Nat) : Int) - (count : Int)⟩ := by
      simp [getProgressToNextTier, progressLoop, getTierInfo, h1]
    rw [e]; dsimp only
    refine ⟨le_min (le_max_right _ _) zero_le_one, min_le_right _ _, ?_, by omega, ?_⟩
    · simp [calculateTier, show ¬ count ≥ 100000000 by omega, show ¬ count ≥ 10000000 by omega,
        show ¬ count ≥ 1000000 by omega, show ¬ count ≥ 100000 by omega]
    · exact fun hc => ⟨rfl, by omega⟩
  by_cases h2 : count < 1000000
  · have e : getProgressToNextTier count =
        ⟨"Silver", some "Gold",
          min (max (((count : ℚ) - ((100000 : Nat) : ℚ)) /
            (((1000000 : Nat) : ℚ) - ((100000 : Nat) : ℚ))) 0) 1,
          ((1000000 : Nat) : Int) - (count : Int)⟩ := by
      simp [getProgressToNextTier, progressLoop, getTierInfo, h1, h2]
    rw [e]; dsimp only
    refine ⟨le_min (le_max_right _ _) zero_le_one, min_le_right _ _, ?_, by omega, ?_⟩
    · simp [calculateTier, show ¬ count ≥ 100000000 by omega, show ¬ count ≥ 10000000 by omega,
        show ¬ count ≥ 1000000 by omega, show count ≥ 100000 by omega]
    · exact fun hc => ⟨rfl, by omega⟩
  by_cases h3 : count < 10000000
  · have e : getProgressToNextTier count =
        ⟨"Gold", some "Runic",
          min (max (((count : ℚ) - ((1000000 : Nat) : ℚ)) /
            (((10000000 : Nat) : ℚ) - ((1000000 : Nat) : ℚ))) 0) 1,
          ((10000000 : Nat) : Int) - (count : Int)⟩ := by
      simp [getProgressToNextTier, progressLoop, getTierInfo, h1, h2, h3]
    rw [e]; dsimp only
    refine ⟨le_min (le_max_right _ _) zero_le_one, min_le_right _ _, ?_, by omega, ?_⟩
    · simp [calculateTier, show ¬ count ≥ 100000000 by omega, show ¬ count ≥ 10000000 by omega,
        show count ≥ 1000000 by omega]
    · exact fun hc => ⟨rfl, by omega⟩
  by_cases h4 : count < 100000000
  · have e : getProgressToNextTier count =
        ⟨"Runic", some "White",
          min (max (((count : ℚ) - ((10000000 : Nat) : ℚ)) /
            (((100000000 : Nat) : ℚ) - ((10000000 : Nat) : ℚ))) 0) 1,
          ((100000000 : Nat) : Int) - (count : Int)⟩ := by
      simp [getProgressToNextTier, progressLoop, getTierInfo, h1, h2, h3, h4]
    rw [e]; dsimp only
    refine ⟨le_min (le_max_right _ _) zero_le_one, min_le_right _ _, ?_, by omega, ?_⟩
    · simp [calculateTier, show ¬ count ≥ 100000000 by omega, show count ≥ 10000000 by omega]
    · exact fun hc => ⟨rfl, by omega⟩
  · have e : getProgressToNextTier count = ⟨"White", none, 1, 0⟩ := by
      simp [getProgressToNextTier, progressLoop, getTierInfo, h1, h2, h3, h4]
    rw [e]; dsimp only
    refine ⟨zero_le_one, le_refl 1, ?_, fun _ => ⟨rfl, rfl⟩, by omega⟩
    · simp [calculateTier, show count ≥ 100000000 by omega]

/-- Witness for C9 at concrete inputs: at the final threshold the next tier
is none with fraction 1; below it the next tier is present with positive
remaining. -/
theorem getProgressToNextTier_witness :
    ((getProgressToNextTier 100000000).nextTier = none ∧
      (getProgressToNextTier 100000000).progress = 1) ∧
    ((getProgressToNextTier 50).nextTier.isSome ∧
      0 < (getProgressToNextTier 50).remaining) :=
  ⟨(getProgressToNextTier_spec 100000000).2.2.2.1 (by decide),
   (getProgressToNextTier_spec 50).2.2.2.2 (by decide)⟩
